import Mathlib

set_option maxRecDepth 100000

/-!
Verification development for the read path of the `cs393_ext2` filesystem
inspector (`src/main.rs`).  The Rust code is shallowly embedded: the byte
image is a `List Nat` of byte values, blocks are `List Nat` slices, machine
integers are `Nat`, and every fallible or panicking operation is modelled
with `Option` (`none` = the Rust code panics or diverges and therefore never
returns a value).  The `std::io::Result` return type of the traversal
functions is modelled by `Except Unit`, so a function returning
`io::Result<T>` is embedded with result type `Option (Except Unit T)`:
`some (.ok v)` is `Ok(v)`, `some (.error e)` is `Err(e)`, `none` means the
call panicked (or looped forever) instead of returning.
-/

/-- Read one byte of the image; out-of-range reads (which are undefined
behaviour for the raw-pointer reads of the source) yield 0. -/
def readU8 (bytes : List Nat) (off : Nat) : Nat :=
  bytes.getD off 0

/-- Little-endian 16-bit read, as done by the source's reinterpret casts. -/
def readU16 (bytes : List Nat) (off : Nat) : Nat :=
  readU8 bytes off + 256 * readU8 bytes (off + 1)

/-- Little-endian 32-bit read, as done by the source's reinterpret casts. -/
def readU32 (bytes : List Nat) (off : Nat) : Nat :=
  readU8 bytes off + 256 * readU8 bytes (off + 1) +
    65536 * readU8 bytes (off + 2) + 16777216 * readU8 bytes (off + 3)

/-- Superblock fields used by the core (`structs.rs` is referenced by
`main.rs` but is not under `src/`). Modelled from the spec: §3 lists the
fields and states that multi-byte fields are little-endian; the byte offsets
are the standard ext2 revision-0 superblock offsets the spec's layout
implies (magic at offset 56 of the superblock, `fs_id` at offset 104). -/
structure Superblock where
  inodes_count : Nat
  blocks_count : Nat
  free_blocks_count : Nat
  free_inodes_count : Nat
  log_block_size : Nat
  blocks_per_group : Nat
  inodes_per_group : Nat
  magic : Nat
  fs_id : List Nat
deriving Repr, DecidableEq

/-- Block group descriptor. Modelled from the spec: §3 gives the 32-byte
record with fields `block_usage_addr`, `inode_usage_addr`,
`inode_table_block`, `free_blocks_count`, `free_inodes_count`, `dirs_count`
at the standard ext2 offsets 0,4,8,12,14,16. -/
structure BlockGroupDescriptor where
  block_usage_addr : Nat
  inode_usage_addr : Nat
  inode_table_block : Nat
  free_blocks_count : Nat
  free_inodes_count : Nat
  dirs_count : Nat
deriving Repr, DecidableEq

/-- Inode record. Modelled from the spec: §3 lists `type_perm`, `size_low`,
`size_high`, the ordered array of exactly 12 `direct_pointer` block numbers,
`indirect_pointer`, `doubly_indirect`, `triply_indirect`; the offsets are the
standard ext2 inode offsets (pointers at bytes 40..99) and the record is the
128-byte revision-0 inode. -/
structure Inode where
  type_perm : Nat
  size_low : Nat
  size_high : Nat
  direct_pointer : List Nat
  indirect_pointer : Nat
  doubly_indirect : Nat
  triply_indirect : Nat
deriving Repr, DecidableEq

/-- The in-memory image, mirroring the Rust `Ext2` struct field for field
(`uuid` is kept as the 16 raw bytes of `fs_id`). -/
structure Ext2 where
  superblock : Superblock
  block_groups : List BlockGroupDescriptor
  blocks : List (List Nat)
  block_size : Nat
  uuid : List Nat
  block_offset : Nat
deriving Repr, DecidableEq

/-- Parse the superblock from the device bytes (superblock occupies bytes
1024..2048 of the image). -/
def parseSuperblock (bytes : List Nat) : Superblock where
  inodes_count := readU32 bytes 1024
  blocks_count := readU32 bytes (1024 + 4)
  free_blocks_count := readU32 bytes (1024 + 12)
  free_inodes_count := readU32 bytes (1024 + 16)
  log_block_size := readU32 bytes (1024 + 24)
  blocks_per_group := readU32 bytes (1024 + 32)
  inodes_per_group := readU32 bytes (1024 + 40)
  magic := readU16 bytes (1024 + 56)
  fs_id := (bytes.drop (1024 + 104)).take 16

/-- Parse one block group descriptor at byte offset `off` of the device. -/
def parseBGD (bytes : List Nat) (off : Nat) : BlockGroupDescriptor where
  block_usage_addr := readU32 bytes off
  inode_usage_addr := readU32 bytes (off + 4)
  inode_table_block := readU32 bytes (off + 8)
  free_blocks_count := readU16 bytes (off + 12)
  free_inodes_count := readU16 bytes (off + 14)
  dirs_count := readU16 bytes (off + 16)

/-- Size in bytes of the on-disk inode record (revision 0). -/
def inodeSize : Nat := 128

/-- Parse an inode record from the bytes starting at its first byte. -/
def parseInode (bytes : List Nat) : Inode where
  type_perm := readU16 bytes 0
  size_low := readU32 bytes 4
  size_high := readU32 bytes 108
  direct_pointer := (List.range 12).map (fun i => readU32 bytes (40 + 4 * i))
  indirect_pointer := readU32 bytes 88
  doubly_indirect := readU32 bytes 92
  triply_indirect := readU32 bytes 96

/-- Rust's `u32::div_ceil`: `a / b` rounded up (the source uses it for the
block group count); the caller must have `b ≠ 0` or the Rust call panics. -/
def divCeil (a b : Nat) : Nat :=
  a / b + (if a % b = 0 then 0 else 1)

namespace Ext2

/-- Embedding of `Ext2::new(device_bytes, start_addr)`.  `deviceAddr` is the
memory address at which `device_bytes` sits (the Rust code takes raw-pointer
addresses of its slices); `startAddr` is the `start_addr` argument.  Every
panic of the source (failed `split_at`, failed `assert_eq` on the magic,
division by zero in `div_ceil`, indexing `block_groups[0]` or `blocks[0]` of
an empty table, underflow of the address subtraction) is `none`. -/
def new (bytes : List Nat) (deviceAddr startAddr : Nat) : Option Ext2 :=
  if bytes.length < 2048 then none
  else
    let sb := parseSuperblock bytes
    if sb.magic ≠ 0xef53 then none
    else if sb.blocks_per_group = 0 then none
    else
      let bgCount := divCeil sb.blocks_count sb.blocks_per_group
      let bs := 1024 <<< sb.log_block_size
      if bytes.length - 2048 < bs then none
      else if bgCount = 0 then none
      else if sb.blocks_count = 0 then none
      else if deviceAddr + 2048 + bs < startAddr then none
      else
        some
          { superblock := sb
            block_groups :=
              (List.range bgCount).map (fun i => parseBGD bytes (2048 + 32 * i))
            blocks :=
              (List.range sb.blocks_count).map
                (fun i => (bytes.drop (2048 + bs + i * bs)).take bs)
            block_size := bs
            uuid := sb.fs_id
            block_offset := (deviceAddr + 2048 + bs - startAddr) / bs }

/-- Embedding of `Ext2::get_inode`.  The Rust function reinterprets the
memory starting at `blocks[inode_table_block - block_offset]` as an array of
`inodes_per_group` inodes; since the block slices produced by `new` are
contiguous in memory, the bytes of that array are the concatenation of the
blocks from that index on, which is what the embedding reads from.  All
panics (`inode = 0` underflow, division by `inodes_per_group = 0`,
out-of-range group or block index, underflow of
`inode_table_block - block_offset`) are `none`. -/
def get_inode (e : Ext2) (inode : Nat) : Option Inode :=
  if inode = 0 then none
  else if e.superblock.inodes_per_group = 0 then none
  else
    let group := (inode - 1) / e.superblock.inodes_per_group
    let index := (inode - 1) % e.superblock.inodes_per_group
    match e.block_groups[group]? with
    | none => none
    | some bg =>
      if bg.inode_table_block < e.block_offset then none
      else
        match e.blocks[bg.inode_table_block - e.block_offset]? with
        | none => none
        | some _ =>
          let region := (e.blocks.drop (bg.inode_table_block - e.block_offset)).flatten
          some (parseInode (region.drop (inodeSize * index)))

/-- The inode table of block group `g`, as the spec describes it: the memory
at `blocks[inode_table_block − block_offset]` reinterpreted as an array of
`inodes_per_group` inode records. -/
def inodeTable (e : Ext2) (g : Nat) : List Inode :=
  match e.block_groups[g]? with
  | none => []
  | some bg =>
    let region := (e.blocks.drop (bg.inode_table_block - e.block_offset)).flatten
    (List.range e.superblock.inodes_per_group).map
      (fun i => parseInode (region.drop (inodeSize * i)))

end Ext2

deriving instance DecidableEq for Except

/-- Result type of the traversal functions: the Rust signature is
`std::io::Result<T>` (`Except Unit T` here, the error payload being
irrelevant), wrapped in `Option` because the body may panic or diverge
instead of returning (`none`). -/
abbrev Res (α : Type) : Type := Option (Except Unit α)

/-- Rust's `.expect(..)` on an `io::Result`: an `Ok` value is unwrapped, an
`Err` makes the caller panic, and a call that already panicked stays a
panic. -/
def expectRes {α : Type} : Res α → Option α
  | some (.ok v) => some v
  | some (.error _) => none
  | none => none

/-- Whether a result is anything other than a returned `Err` value. -/
def noErr {α : Type} : Res α → Bool
  | some (.error _) => false
  | _ => true


/-- Rust's `ret.extend_from_slice(&data)` followed by running the rest of
the loop: append `data` in front of whatever the rest of the loop produces,
propagating a panic or an `Err` unchanged. -/
def resAppend {α : Type} (data : List α) : Res (List α) → Res (List α)
  | some (.ok rest) => some (.ok (data ++ rest))
  | r => r

namespace Ext2

/-- Loop body of `read_file_indir_ptr`: scan the meta-block `blk` from byte
offset `off`, reading one little-endian `u32` block number per iteration and
advancing 4 bytes; a zero block number ends the scan, and each non-zero
block number `b` is looked up as `blocks[b]` (the source does NOT subtract
`block_offset` here).  `fuel` bounds the recursion; the callers pass
`block_size + 1`, which the stride of 4 can never exhaust. -/
def fileIndirGo (e : Ext2) (blk : List Nat) : Nat → Nat → Res (List Nat)
  | 0, _ => none
  | fuel + 1, off =>
    if off < e.block_size then
      if readU32 blk off = 0 then some (.ok [])
      else
        match e.blocks[readU32 blk off]? with
        | none => none
        | some data => resAppend data (fileIndirGo e blk fuel (off + 4))
    else some (.ok [])

/-- Embedding of `Ext2::read_file_indir_ptr`. -/
def read_file_indir_ptr (e : Ext2) (block_num : Nat) : Res (List Nat) :=
  match e.blocks[block_num]? with
  | none => none
  | some blk => fileIndirGo e blk (e.block_size + 1) 0

/-- Loop body of `read_file_doubly_ptr`: each non-zero `u32` entry is passed
to `read_file_indir_ptr` unchanged (again no `block_offset` subtraction) and
the result unwrapped with `.expect`. -/
def fileDoublyGo (e : Ext2) (blk : List Nat) : Nat → Nat → Res (List Nat)
  | 0, _ => none
  | fuel + 1, off =>
    if off < e.block_size then
      if readU32 blk off = 0 then some (.ok [])
      else
        match expectRes (read_file_indir_ptr e (readU32 blk off)) with
        | none => none
        | some data => resAppend data (fileDoublyGo e blk fuel (off + 4))
    else some (.ok [])

/-- Embedding of `Ext2::read_file_doubly_ptr`. -/
def read_file_doubly_ptr (e : Ext2) (block_num : Nat) : Res (List Nat) :=
  match e.blocks[block_num]? with
  | none => none
  | some blk => fileDoublyGo e blk (e.block_size + 1) 0

/-- Loop body of `read_file_triply_ptr`. -/
def fileTriplyGo (e : Ext2) (blk : List Nat) : Nat → Nat → Res (List Nat)
  | 0, _ => none
  | fuel + 1, off =>
    if off < e.block_size then
      if readU32 blk off = 0 then some (.ok [])
      else
        match expectRes (read_file_doubly_ptr e (readU32 blk off)) with
        | none => none
        | some data => resAppend data (fileTriplyGo e blk fuel (off + 4))
    else some (.ok [])

/-- Embedding of `Ext2::read_file_triply_ptr`. -/
def read_file_triply_ptr (e : Ext2) (block_num : Nat) : Res (List Nat) :=
  match e.blocks[block_num]? with
  | none => none
  | some blk => fileTriplyGo e blk (e.block_size + 1) 0

/-- The `for direct_ptr in root.direct_pointer` loop of `read_file_inode`:
the accumulated bytes plus a flag recording whether the loop ended early via
`return Ok(ret)` on a zero pointer (`true`) or ran off the end of the
pointer array (`false`).  Direct pointers DO get the `block_offset`
subtraction; a pointer below `block_offset` makes the Rust subtraction
underflow, a panic. `none` is a panic (underflow or out-of-range block
index). -/
def fileDirectPhase (e : Ext2) : List Nat → Option (List Nat × Bool)
  | [] => some ([], false)
  | p :: ps =>
    if p = 0 then some ([], true)
    else if p < e.block_offset then none
    else
      match e.blocks[p - e.block_offset]? with
      | none => none
      | some data =>
        match fileDirectPhase e ps with
        | none => none
        | some (rest, early) => some (data ++ rest, early)

/-- Body of `Ext2::read_file_inode` after the `get_inode` call, taking the
inode record directly. -/
def readFileFromInode (e : Ext2) (root : Inode) : Res (List Nat) :=
  match fileDirectPhase e root.direct_pointer with
  | none => none
  | some (acc, true) => some (.ok acc)
  | some (acc, false) =>
    if root.indirect_pointer = 0 then some (.ok acc)
    else if root.indirect_pointer < e.block_offset then none
    else
      match expectRes (read_file_indir_ptr e (root.indirect_pointer - e.block_offset)) with
      | none => none
      | some d1 =>
        if root.doubly_indirect = 0 then some (.ok (acc ++ d1))
        else if root.doubly_indirect < e.block_offset then none
        else
          match expectRes (read_file_doubly_ptr e (root.doubly_indirect - e.block_offset)) with
          | none => none
          | some d2 =>
            if root.triply_indirect = 0 then some (.ok (acc ++ d1 ++ d2))
            else if root.triply_indirect < e.block_offset then none
            else
              match expectRes (read_file_triply_ptr e (root.triply_indirect - e.block_offset)) with
              | none => none
              | some d3 => some (.ok (acc ++ d1 ++ d2 ++ d3))

/-- Embedding of `Ext2::read_file_inode`. -/
def read_file_inode (e : Ext2) (inode : Nat) : Res (List Nat) :=
  match e.get_inode inode with
  | none => none
  | some root => readFileFromInode e root

/-- The fields of a `DirectoryEntry` record decoded at byte offset `off` of
a block: `inode` (u32 at +0), `entry_size` (u16 at +4), `name_length` (u8 at
+6), and the name.  Modelled from the spec: `structs.rs` (not under `src/`)
declares the record; §3 gives this layout with the name being the
`name_length` bytes after the 8-byte fixed header. -/
def entryInode (blk : List Nat) (off : Nat) : Nat := readU32 blk off

/-- The `entry_size` field of the record at `off`; see `entryInode`. -/
def entrySize (blk : List Nat) (off : Nat) : Nat := readU16 blk (off + 4)

/-- The name bytes of the record at `off`; see `entryInode`. -/
def entryName (blk : List Nat) (off : Nat) : List Nat :=
  (blk.drop (off + 8)).take (readU8 blk (off + 6))

/-- The `while byte_offset < block_size` scan that `read_dir_inode` runs on
a data block and that `read_dir_indir_ptr` (and its doubly/triply versions)
run on a meta-block: decode a `DirectoryEntry` at the current offset, stop
on `inode == 0`, otherwise emit the `(inode, name)` pair and advance by the
record's own `entry_size`.  The `Bool` records whether the scan stopped on a
zero inode (`true`) or ran past `block_size` (`false`).  `fuel` bounds the
recursion: callers pass `block_size + 1`, which suffices for every
terminating run (offsets advance by `entry_size ≥ 1` at most `block_size`
times); an `entry_size` of 0 makes the Rust loop run forever, which is
`none` here. -/
def dirWalkGo (e : Ext2) (blk : List Nat) : Nat → Nat → Option (List (Nat × List Nat) × Bool)
  | 0, _ => none
  | fuel + 1, off =>
    if off < e.block_size then
      if entryInode blk off = 0 then some ([], true)
      else
        match dirWalkGo e blk fuel (off + entrySize blk off) with
        | none => none
        | some (es, early) => some ((entryInode blk off, entryName blk off) :: es, early)
    else some ([], false)

/-- Embedding of `Ext2::read_dir_indir_ptr`: the meta-block is scanned with
the directory-entry walk (decoding each slot as a `DirectoryEntry` and
striding by its `entry_size` — NOT as an array of u32 block numbers), and
every pair found is returned; whether the walk ended on a zero inode or ran
off the block, the function returns `Ok` of the pairs. -/
def read_dir_indir_ptr (e : Ext2) (block_num : Nat) : Res (List (Nat × List Nat)) :=
  match e.blocks[block_num]? with
  | none => none
  | some blk =>
    match dirWalkGo e blk (e.block_size + 1) 0 with
    | none => none
    | some (es, _) => some (.ok es)

/-- Loop body of `read_dir_doubly_ptr`: each record's `inode` field is
passed to `read_dir_indir_ptr` as a block number (no `block_offset`
subtraction) and the scan advances by the record's `entry_size`. -/
def dirDoublyGo (e : Ext2) (blk : List Nat) : Nat → Nat → Res (List (Nat × List Nat))
  | 0, _ => none
  | fuel + 1, off =>
    if off < e.block_size then
      if entryInode blk off = 0 then some (.ok [])
      else
        match expectRes (read_dir_indir_ptr e (entryInode blk off)) with
        | none => none
        | some data => resAppend data (dirDoublyGo e blk fuel (off + entrySize blk off))
    else some (.ok [])

/-- Embedding of `Ext2::read_dir_doubly_ptr`. -/
def read_dir_doubly_ptr (e : Ext2) (block_num : Nat) : Res (List (Nat × List Nat)) :=
  match e.blocks[block_num]? with
  | none => none
  | some blk => dirDoublyGo e blk (e.block_size + 1) 0

/-- Loop body of `read_dir_triply_ptr`. -/
def dirTriplyGo (e : Ext2) (blk : List Nat) : Nat → Nat → Res (List (Nat × List Nat))
  | 0, _ => none
  | fuel + 1, off =>
    if off < e.block_size then
      if entryInode blk off = 0 then some (.ok [])
      else
        match expectRes (read_dir_doubly_ptr e (entryInode blk off)) with
        | none => none
        | some data => resAppend data (dirTriplyGo e blk fuel (off + entrySize blk off))
    else some (.ok [])

/-- Embedding of `Ext2::read_dir_triply_ptr`. -/
def read_dir_triply_ptr (e : Ext2) (block_num : Nat) : Res (List (Nat × List Nat)) :=
  match e.blocks[block_num]? with
  | none => none
  | some blk => dirTriplyGo e blk (e.block_size + 1) 0

/-- The `for direct_ptr in root.direct_pointer` loop of `read_dir_inode`:
the pairs accumulated so far plus a flag recording whether the loop ended
with a full-function `return Ok(ret)` (`true`: a zero direct pointer, or a
zero-inode record inside a block) or by exhausting the pointer array
(`false`).  Direct pointers get the `block_offset` subtraction. -/
def dirDirectPhase (e : Ext2) : List Nat → Option (List (Nat × List Nat) × Bool)
  | [] => some ([], false)
  | p :: ps =>
    if p = 0 then some ([], true)
    else if p < e.block_offset then none
    else
      match e.blocks[p - e.block_offset]? with
      | none => none
      | some blk =>
        match dirWalkGo e blk (e.block_size + 1) 0 with
        | none => none
        | some (es, true) => some (es, true)
        | some (es, false) =>
          match dirDirectPhase e ps with
          | none => none
          | some (es', early) => some (es ++ es', early)

/-- Body of `Ext2::read_dir_inode` after the `get_inode` call. -/
def readDirFromInode (e : Ext2) (root : Inode) : Res (List (Nat × List Nat)) :=
  match dirDirectPhase e root.direct_pointer with
  | none => none
  | some (acc, true) => some (.ok acc)
  | some (acc, false) =>
    if root.indirect_pointer = 0 then some (.ok acc)
    else if root.indirect_pointer < e.block_offset then none
    else
      match expectRes (read_dir_indir_ptr e (root.indirect_pointer - e.block_offset)) with
      | none => none
      | some d1 =>
        if root.doubly_indirect = 0 then some (.ok (acc ++ d1))
        else if root.doubly_indirect < e.block_offset then none
        else
          match expectRes (read_dir_doubly_ptr e (root.doubly_indirect - e.block_offset)) with
          | none => none
          | some d2 =>
            if root.triply_indirect = 0 then some (.ok (acc ++ d1 ++ d2))
            else if root.triply_indirect < e.block_offset then none
            else
              match expectRes (read_dir_triply_ptr e (root.triply_indirect - e.block_offset)) with
              | none => none
              | some d3 => some (.ok (acc ++ d1 ++ d2 ++ d3))

/-- Embedding of `Ext2::read_dir_inode`. -/
def read_dir_inode (e : Ext2) (inode : Nat) : Res (List (Nat × List Nat)) :=
  match e.get_inode inode with
  | none => none
  | some root => readDirFromInode e root

/-- The concatenated contents of the data blocks referenced by a list of
direct pointers, each translated by `block_offset` as the direct-pointer
loop does. -/
def directJoin (e : Ext2) (ps : List Nat) : List Nat :=
  (ps.map (fun p => (e.blocks[p - e.block_offset]?).getD [])).flatten

/-- The bytes contributed by the singly-indirect pointer: nothing when the
pointer is 0, otherwise everything `read_file_indir_ptr` produces for it. -/
def fileIndirContrib (e : Ext2) (p : Nat) : List Nat :=
  if p = 0 then [] else (expectRes (read_file_indir_ptr e (p - e.block_offset))).getD []

/-- The bytes contributed by the doubly-indirect subtree. -/
def fileDoublyContrib (e : Ext2) (p : Nat) : List Nat :=
  if p = 0 then [] else (expectRes (read_file_doubly_ptr e (p - e.block_offset))).getD []

/-- The bytes contributed by the triply-indirect subtree. -/
def fileTriplyContrib (e : Ext2) (p : Nat) : List Nat :=
  if p = 0 then [] else (expectRes (read_file_triply_ptr e (p - e.block_offset))).getD []

/-- The file contents as the traversal-order sentence of the spec describes
them: the 12 direct blocks in order, then the singly-indirect leaves, then
the doubly-indirect subtree, then the triply-indirect subtree — each part
contributing nothing when its pointer is 0. -/
def claimFileConcat (e : Ext2) (root : Inode) : List Nat :=
  directJoin e root.direct_pointer ++ fileIndirContrib e root.indirect_pointer ++
    fileDoublyContrib e root.doubly_indirect ++ fileTriplyContrib e root.triply_indirect

/-- The file contents as the code actually assembles them when all direct
pointers are non-zero: a zero pointer at the singly-, doubly- or
triply-indirect level ends the traversal, skipping every later subtree even
when its pointer is non-zero. -/
def amendedFileConcat (e : Ext2) (root : Inode) : List Nat :=
  directJoin e root.direct_pointer ++
    (if root.indirect_pointer = 0 then []
     else fileIndirContrib e root.indirect_pointer ++
       (if root.doubly_indirect = 0 then []
        else fileDoublyContrib e root.doubly_indirect ++
          (if root.triply_indirect = 0 then []
           else fileTriplyContrib e root.triply_indirect)))

end Ext2

/-- A superblock whose fields are irrelevant to the traversal functions. -/
def dummySB : Superblock :=
  { inodes_count := 0, blocks_count := 0, free_blocks_count := 0,
    free_inodes_count := 0, log_block_size := 0, blocks_per_group := 0,
    inodes_per_group := 0, magic := 0xef53, fs_id := [] }

/-- Image for the `block_offset` failing input: `block_offset = 1`,
`block_size = 4`; block 2 is a singly-indirect meta-block naming on-disk
block 4, and blocks 3 and 4 hold different bytes so the two candidate leaf
reads are distinguishable. -/
def E1 : Ext2 :=
  { superblock := dummySB, block_groups := [],
    blocks := [[0, 0, 0, 0], [1, 1, 1, 1], [4, 0, 0, 0], [8, 8, 8, 8], [9, 9, 9, 9]],
    block_size := 4, uuid := [], block_offset := 1 }

/-- Inode for `E1`: twelve direct pointers to on-disk block 2 and a
singly-indirect pointer to on-disk block 3. -/
def R1 : Inode :=
  { type_perm := 0x8000, size_low := 52, size_high := 0,
    direct_pointer := List.replicate 12 2, indirect_pointer := 3,
    doubly_indirect := 0, triply_indirect := 0 }

/-- Image whose block 0 is a meta-block byte pattern that tells the
directory-path and the spec-required decodings apart: as a `DirectoryEntry`
it is inode 5, `entry_size` 12, name `[65]`; as an array of u32 block
numbers it is `[5, 65548, 65, 0]`. -/
def E2 : Ext2 :=
  { superblock := dummySB, block_groups := [],
    blocks := [[5, 0, 0, 0, 12, 0, 1, 0, 65, 0, 0, 0, 0, 0, 0, 0]],
    block_size := 16, uuid := [], block_offset := 0 }

/-- Image for the zero-direct-pointer sentinel witness: `block_size = 2`,
three blocks. -/
def E3 : Ext2 :=
  { superblock := dummySB, block_groups := [],
    blocks := [[9, 9], [1, 2], [3, 4]],
    block_size := 2, uuid := [], block_offset := 0 }

/-- Inode for `E3`: two non-zero direct pointers, then a zero; the three
indirect pointers are non-zero and point outside `blocks`, so consulting any
of them would panic rather than produce a value. -/
def R3 : Inode :=
  { type_perm := 0x8000, size_low := 4, size_high := 0,
    direct_pointer := [1, 2, 0, 0, 0, 0, 0, 0, 0, 0, 0, 0], indirect_pointer := 5,
    doubly_indirect := 5, triply_indirect := 5 }

/-- Image for the traversal-order claims: `block_size = 4`; block 2 is a
doubly-indirect meta-block naming block 3, block 3 a singly-indirect
meta-block naming block 5, block 5 a data block. -/
def E4 : Ext2 :=
  { superblock := dummySB, block_groups := [],
    blocks := [[0, 0, 0, 0], [1, 1, 1, 1], [3, 0, 0, 0], [5, 0, 0, 0], [0, 0, 0, 0], [9, 9, 9, 9]],
    block_size := 4, uuid := [], block_offset := 0 }

/-- Inode for the order counterexample: all 12 direct pointers non-zero, a
ZERO singly-indirect pointer, and a non-zero doubly-indirect pointer whose
subtree holds the bytes `[9, 9, 9, 9]`. -/
def R4 : Inode :=
  { type_perm := 0x8000, size_low := 48, size_high := 0,
    direct_pointer := List.replicate 12 1, indirect_pointer := 0,
    doubly_indirect := 2, triply_indirect := 0 }

/-- Inode for the amended-order witness: all 12 direct pointers non-zero, a
non-zero singly-indirect pointer, a zero doubly-indirect pointer, and a
non-zero triply-indirect pointer (which the code skips). -/
def R4b : Inode :=
  { type_perm := 0x8000, size_low := 52, size_high := 0,
    direct_pointer := List.replicate 12 1, indirect_pointer := 3,
    doubly_indirect := 0, triply_indirect := 2 }

/-- Image for the malformed-directory-entry claim: `block_size = 16`.
Block 1 starts with a record whose `entry_size` is 100 > 16 (inode 7, name
`[66]`); block 2 holds a well-formed record (inode 3, name `[67]`) followed
by a zero-inode record. -/
def E6 : Ext2 :=
  { superblock := dummySB, block_groups := [],
    blocks := [List.replicate 16 0,
               [7, 0, 0, 0, 100, 0, 1, 0, 66, 0, 0, 0, 0, 0, 0, 0],
               [3, 0, 0, 0, 12, 0, 1, 0, 67, 0, 0, 0, 0, 0, 0, 0]],
    block_size := 16, uuid := [], block_offset := 0 }

/-- Directory inode for `E6`: direct pointers to blocks 1 and 2, then
zeros. -/
def R6 : Inode :=
  { type_perm := 0x4000, size_low := 32, size_high := 0,
    direct_pointer := [1, 2, 0, 0, 0, 0, 0, 0, 0, 0, 0, 0], indirect_pointer := 0,
    doubly_indirect := 0, triply_indirect := 0 }

/-- Image for the zero-record early-return witness: block 1 holds one record
(inode 4, name `[68]`) followed by a zero-inode record. -/
def E10 : Ext2 :=
  { superblock := dummySB, block_groups := [],
    blocks := [List.replicate 16 0,
               [4, 0, 0, 0, 12, 0, 1, 0, 68, 0, 0, 0, 0, 0, 0, 0]],
    block_size := 16, uuid := [], block_offset := 0 }

/-- Directory inode for `E10`: the first direct pointer reaches the block
with the zero record; every later direct pointer and all three indirect
pointers are 9, which is outside `blocks`, so consulting any of them would
panic rather than produce a value. -/
def R10 : Inode :=
  { type_perm := 0x4000, size_low := 16, size_high := 0,
    direct_pointer := 1 :: List.replicate 11 9, indirect_pointer := 9,
    doubly_indirect := 9, triply_indirect := 9 }

/-- Image for the inode-locator witness: one block group whose inode table
starts at block 1, two inodes per group; block 1 carries the byte values
`0..255`, so the two 128-byte inode slots differ. -/
def E7 : Ext2 :=
  { superblock := { dummySB with inodes_per_group := 2 },
    block_groups :=
      [{ block_usage_addr := 0, inode_usage_addr := 0, inode_table_block := 1,
         free_blocks_count := 0, free_inodes_count := 0, dirs_count := 0 }],
    blocks := [List.replicate 4 0, List.range 256],
    block_size := 1024, uuid := [], block_offset := 0 }

/-- Byte `i` of a minimal well-formed 4096-byte image: magic 0xEF53,
`blocks_count = 1`, `blocks_per_group = 1`, `inodes_per_group = 1`,
`log_block_size = 0`, everything else zero. -/
def goodByte (i : Nat) : Nat :=
  if i = 1024 + 56 then 0x53
  else if i = 1024 + 57 then 0xef
  else if i = 1024 + 4 then 1
  else if i = 1024 + 32 then 1
  else if i = 1024 + 40 then 1
  else 0

/-- A minimal image accepted by `Ext2.new`. -/
def goodImage : List Nat := (List.range 4096).map goodByte

/-- An image of all-zero bytes: long enough to parse, but its magic field is
0, not 0xEF53. -/
def badImage : List Nat := List.replicate 2048 0

/-- The image value `Ext2.new goodImage 0 0` produces. -/
def Egood : Ext2 :=
  { superblock := parseSuperblock goodImage
    block_groups := (List.range 1).map (fun i => parseBGD goodImage (2048 + 32 * i))
    blocks := (List.range 1).map (fun i => (goodImage.drop (2048 + 1024 + i * 1024)).take 1024)
    block_size := 1024
    uuid := (parseSuperblock goodImage).fs_id
    block_offset := 3 }

theorem range_getElem? (n i : Nat) : (List.range n)[i]? = if i < n then some i else none := by
  rcases Nat.lt_or_ge i n with h | h
  · simp [List.getElem?_range h, h]
  · rw [List.getElem?_eq_none (by simpa using h)]
    simp [Nat.not_lt.mpr h]

theorem goodImage_getD (i : Nat) :
    goodImage.getD i 0 = if i < 4096 then goodByte i else 0 := by
  rw [goodImage, List.getD, List.get?_eq_getElem?, List.getElem?_map, range_getElem?]
  split <;> rfl

theorem goodImage_length : goodImage.length = 4096 := by
  simp [goodImage]

theorem good_magic : (parseSuperblock goodImage).magic = 0xef53 := by
  simp only [parseSuperblock, readU16, readU8, goodImage_getD]
  norm_num [goodByte]

theorem good_bc : (parseSuperblock goodImage).blocks_count = 1 := by
  simp only [parseSuperblock, readU32, readU8, goodImage_getD]
  norm_num [goodByte]

theorem good_bpg : (parseSuperblock goodImage).blocks_per_group = 1 := by
  simp only [parseSuperblock, readU32, readU8, goodImage_getD]
  norm_num [goodByte]

theorem good_log : (parseSuperblock goodImage).log_block_size = 0 := by
  simp only [parseSuperblock, readU32, readU8, goodImage_getD]
  norm_num [goodByte]

theorem new_goodImage : Ext2.new goodImage 0 0 = some Egood := by
  rw [Ext2.new, goodImage_length]
  simp only [good_magic, good_bc, good_bpg, good_log]
  norm_num [divCeil, Egood]

theorem badImage_getD (i : Nat) : badImage.getD i 0 = 0 := by
  rw [badImage, List.getD, List.get?_eq_getElem?, List.getElem?_replicate]
  split <;> rfl

theorem bad_magic : (parseSuperblock badImage).magic = 0 := by
  simp only [parseSuperblock, readU16, readU8, badImage_getD]

theorem new_badImage : Ext2.new badImage 0 0 = none := by
  rw [Ext2.new]
  have hlen : badImage.length = 2048 := by simp [badImage]
  rw [hlen]
  simp [bad_magic]


theorem noErr_resAppend {α : Type} (d : List α) (r : Res (List α)) :
    noErr (resAppend d r) = noErr r := by
  match r with
  | none => rfl
  | some (.ok v) => rfl
  | some (.error err) => rfl

theorem fileIndirGo_noErr (e : Ext2) (blk : List Nat) :
    ∀ fuel off, noErr (Ext2.fileIndirGo e blk fuel off) = true := by
  intro fuel
  induction fuel with
  | zero => intro off; rfl
  | succ n ih =>
    intro off
    rw [Ext2.fileIndirGo]
    split
    · split
      · rfl
      · split
        · rfl
        · rw [noErr_resAppend]; exact ih _
    · rfl

theorem read_file_indir_ptr_noErr (e : Ext2) (b : Nat) :
    noErr (Ext2.read_file_indir_ptr e b) = true := by
  rw [Ext2.read_file_indir_ptr]
  split
  · rfl
  · exact fileIndirGo_noErr e _ _ _

theorem fileDoublyGo_noErr (e : Ext2) (blk : List Nat) :
    ∀ fuel off, noErr (Ext2.fileDoublyGo e blk fuel off) = true := by
  intro fuel
  induction fuel with
  | zero => intro off; rfl
  | succ n ih =>
    intro off
    rw [Ext2.fileDoublyGo]
    split
    · split
      · rfl
      · split
        · rfl
        · rw [noErr_resAppend]; exact ih _
    · rfl

theorem read_file_doubly_ptr_noErr (e : Ext2) (b : Nat) :
    noErr (Ext2.read_file_doubly_ptr e b) = true := by
  rw [Ext2.read_file_doubly_ptr]
  split
  · rfl
  · exact fileDoublyGo_noErr e _ _ _

theorem fileTriplyGo_noErr (e : Ext2) (blk : List Nat) :
    ∀ fuel off, noErr (Ext2.fileTriplyGo e blk fuel off) = true := by
  intro fuel
  induction fuel with
  | zero => intro off; rfl
  | succ n ih =>
    intro off
    rw [Ext2.fileTriplyGo]
    split
    · split
      · rfl
      · split
        · rfl
        · rw [noErr_resAppend]; exact ih _
    · rfl

theorem read_file_triply_ptr_noErr (e : Ext2) (b : Nat) :
    noErr (Ext2.read_file_triply_ptr e b) = true := by
  rw [Ext2.read_file_triply_ptr]
  split
  · rfl
  · exact fileTriplyGo_noErr e _ _ _

theorem readFileFromInode_noErr (e : Ext2) (root : Inode) :
    noErr (Ext2.readFileFromInode e root) = true := by
  rw [Ext2.readFileFromInode]
  repeat' split
  all_goals rfl

theorem read_dir_indir_ptr_noErr (e : Ext2) (b : Nat) :
    noErr (Ext2.read_dir_indir_ptr e b) = true := by
  rw [Ext2.read_dir_indir_ptr]
  repeat' split
  all_goals rfl

theorem dirDoublyGo_noErr (e : Ext2) (blk : List Nat) :
    ∀ fuel off, noErr (Ext2.dirDoublyGo e blk fuel off) = true := by
  intro fuel
  induction fuel with
  | zero => intro off; rfl
  | succ n ih =>
    intro off
    rw [Ext2.dirDoublyGo]
    split
    · split
      · rfl
      · split
        · rfl
        · rw [noErr_resAppend]; exact ih _
    · rfl

theorem read_dir_doubly_ptr_noErr (e : Ext2) (b : Nat) :
    noErr (Ext2.read_dir_doubly_ptr e b) = true := by
  rw [Ext2.read_dir_doubly_ptr]
  split
  · rfl
  · exact dirDoublyGo_noErr e _ _ _

theorem dirTriplyGo_noErr (e : Ext2) (blk : List Nat) :
    ∀ fuel off, noErr (Ext2.dirTriplyGo e blk fuel off) = true := by
  intro fuel
  induction fuel with
  | zero => intro off; rfl
  | succ n ih =>
    intro off
    rw [Ext2.dirTriplyGo]
    split
    · split
      · rfl
      · split
        · rfl
        · rw [noErr_resAppend]; exact ih _
    · rfl

theorem read_dir_triply_ptr_noErr (e : Ext2) (b : Nat) :
    noErr (Ext2.read_dir_triply_ptr e b) = true := by
  rw [Ext2.read_dir_triply_ptr]
  split
  · rfl
  · exact dirTriplyGo_noErr e _ _ _

theorem readDirFromInode_noErr (e : Ext2) (root : Inode) :
    noErr (Ext2.readDirFromInode e root) = true := by
  rw [Ext2.readDirFromInode]
  repeat' split
  all_goals rfl

/-- C9: `read_dir_inode` and `read_file_inode` never return an `Err` value:
although both are declared with an io-error case, every return path yields a
success value, and all failure conditions end in a panic (`none`), never in
a returned error. -/
theorem c9_never_returns_error (e : Ext2) (n : Nat) :
    noErr (Ext2.read_dir_inode e n) = true ∧ noErr (Ext2.read_file_inode e n) = true := by
  constructor
  · rw [Ext2.read_dir_inode]
    split
    · rfl
    · exact readDirFromInode_noErr e _
  · rw [Ext2.read_file_inode]
    split
    · rfl
    · exact readFileFromInode_noErr e _

theorem fileDirectPhase_zero (e : Ext2) (ps₂ : List Nat) :
    ∀ ps₁, (∀ p ∈ ps₁, p ≠ 0) → (∀ p ∈ ps₁, e.block_offset ≤ p) →
      (∀ p ∈ ps₁, (e.blocks[p - e.block_offset]?).isSome) →
      Ext2.fileDirectPhase e (ps₁ ++ 0 :: ps₂) = some (Ext2.directJoin e ps₁, true) := by
  intro ps₁
  induction ps₁ with
  | nil =>
    intro _ _ _
    simp [Ext2.fileDirectPhase, Ext2.directJoin]
  | cons p ps ih =>
    intro hnz hle hsome
    have hp : p ≠ 0 := hnz p (by simp)
    obtain ⟨blk, hblk⟩ := Option.isSome_iff_exists.mp (hsome p (by simp))
    rw [List.cons_append, Ext2.fileDirectPhase, if_neg hp,
        if_neg (Nat.not_lt.mpr (hle p (by simp))), hblk,
        ih (fun q hq => hnz q (by simp [hq])) (fun q hq => hle q (by simp [hq]))
          (fun q hq => hsome q (by simp [hq]))]
    simp [Ext2.directJoin, hblk]

/-- C3: when the direct-pointer array has its first zero at position `k`
(here: `direct_pointer = ps₁ ++ 0 :: ps₂` with every element of `ps₁`
non-zero), `read_file_inode`'s traversal returns exactly the concatenation
of the blocks referenced by the first `k` pointers — nothing from the later
direct pointers and nothing from any indirect level. -/
theorem c3_zero_direct_pointer_sentinel (e : Ext2) (root : Inode) (ps₁ ps₂ : List Nat)
    (hsplit : root.direct_pointer = ps₁ ++ 0 :: ps₂)
    (hnz : ∀ p ∈ ps₁, p ≠ 0)
    (hle : ∀ p ∈ ps₁, e.block_offset ≤ p)
    (hsome : ∀ p ∈ ps₁, (e.blocks[p - e.block_offset]?).isSome) :
    Ext2.readFileFromInode e root = some (.ok (Ext2.directJoin e ps₁)) := by
  rw [Ext2.readFileFromInode, hsplit, fileDirectPhase_zero e ps₂ ps₁ hnz hle hsome]

/-- Witness for C3: on the concrete image `E3`, whose inode has direct
pointers `[1, 2, 0, …]` and non-zero (dangling) indirect pointers, the read
returns exactly blocks 1 and 2. -/
theorem c3_witness : Ext2.readFileFromInode E3 R3 = some (.ok [1, 2, 3, 4]) := by
  have h := c3_zero_direct_pointer_sentinel E3 R3 [1, 2] (List.replicate 9 0)
    (by decide) (by decide) (by decide) (by decide)
  rw [h]
  decide

theorem fileDirectPhase_nonzero (e : Ext2) :
    ∀ ps acc early, (∀ p ∈ ps, p ≠ 0) → Ext2.fileDirectPhase e ps = some (acc, early) →
      early = false ∧ acc = Ext2.directJoin e ps := by
  intro ps
  induction ps with
  | nil =>
    intro acc early _ h
    rw [Ext2.fileDirectPhase] at h
    simp only [Option.some.injEq, Prod.mk.injEq] at h
    exact ⟨h.2.symm, by simp [← h.1, Ext2.directJoin]⟩
  | cons p ps ih =>
    intro acc early hnz h
    have hp : p ≠ 0 := hnz p (by simp)
    rw [Ext2.fileDirectPhase, if_neg hp] at h
    by_cases hlt : p < e.block_offset
    · rw [if_pos hlt] at h
      exact absurd h (by simp)
    rw [if_neg hlt] at h
    cases hblk : e.blocks[p - e.block_offset]? with
    | none => rw [hblk] at h; simp at h
    | some blk =>
      rw [hblk] at h
      cases hph : Ext2.fileDirectPhase e ps with
      | none => rw [hph] at h; simp at h
      | some pr =>
        obtain ⟨rest, early'⟩ := pr
        rw [hph] at h
        simp only [Option.some.injEq, Prod.mk.injEq] at h
        obtain ⟨he', hrest⟩ := ih rest early' (fun q hq => hnz q (by simp [hq])) hph
        refine ⟨by rw [← h.2, he'], ?_⟩
        rw [← h.1, hrest]
        simp [Ext2.directJoin, hblk]

/-- C4 counterexample: `R4` has all 12 direct pointers non-zero, a zero
singly-indirect pointer, and a doubly-indirect subtree holding
`[9, 9, 9, 9]`; the code returns the direct blocks only, while the
claimed four-part concatenation also contains the doubly-indirect bytes. -/
theorem c4_order_counterexample :
    R4.direct_pointer.length = 12 ∧
    R4.direct_pointer.all (fun p => p != 0) = true ∧
    Ext2.readFileFromInode E4 R4 = some (.ok (List.replicate 48 1)) ∧
    decide (Ext2.claimFileConcat E4 R4 = List.replicate 48 1) = false := by
  decide

/-- C4 (amended): for an inode with all 12 direct pointers non-zero, a
successful `read_file_inode` traversal returns the direct blocks in order
followed by the indirect subtrees in singly/doubly/triply order, except that
a zero pointer at one level ends the traversal and skips all later levels. -/
theorem c4_amended_traversal_order (e : Ext2) (root : Inode) (out : List Nat)
    (_hlen : root.direct_pointer.length = 12)
    (hnz : ∀ p ∈ root.direct_pointer, p ≠ 0)
    (hres : Ext2.readFileFromInode e root = some (.ok out)) :
    out = Ext2.amendedFileConcat e root := by
  rw [Ext2.readFileFromInode] at hres
  split at hres
  · exact absurd hres (by simp)
  · next acc heq =>
    have := (fileDirectPhase_nonzero e root.direct_pointer acc true hnz heq).1
    simp at this
  · next acc heq =>
    obtain ⟨-, hacc⟩ := fileDirectPhase_nonzero e root.direct_pointer acc false hnz heq
    rw [Ext2.amendedFileConcat, ← hacc]
    split at hres
    · next h1 =>
      simp only [Option.some.injEq, Except.ok.injEq] at hres
      rw [if_pos h1, List.append_nil, ← hres]
    · next h1 =>
      rw [if_neg h1, Ext2.fileIndirContrib, if_neg h1]
      split at hres
      · exact absurd hres (by simp)
      · next hlt1 =>
        split at hres
        · exact absurd hres (by simp)
        · next d1 hd1 =>
          rw [hd1, Option.getD_some]
          split at hres
          · next h2 =>
            simp only [Option.some.injEq, Except.ok.injEq] at hres
            rw [if_pos h2, List.append_nil, ← hres]
          · next h2 =>
            rw [if_neg h2, Ext2.fileDoublyContrib, if_neg h2]
            split at hres
            · exact absurd hres (by simp)
            · next hlt2 =>
              split at hres
              · exact absurd hres (by simp)
              · next d2 hd2 =>
                rw [hd2, Option.getD_some]
                split at hres
                · next h3 =>
                  simp only [Option.some.injEq, Except.ok.injEq] at hres
                  rw [if_pos h3, List.append_nil, ← hres, List.append_assoc]
                · next h3 =>
                  rw [if_neg h3, Ext2.fileTriplyContrib, if_neg h3]
                  split at hres
                  · exact absurd hres (by simp)
                  · next hlt3 =>
                    split at hres
                    · exact absurd hres (by simp)
                    · next d3 hd3 =>
                      rw [hd3, Option.getD_some]
                      simp only [Option.some.injEq, Except.ok.injEq] at hres
                      rw [← hres]
                      simp [List.append_assoc]

/-- Witness for C4 (amended): on `E4` with inode `R4b` (all direct pointers
non-zero, singly-indirect set, doubly-indirect zero, triply-indirect
non-zero) the traversal returns the direct blocks then the singly-indirect
leaves, and the amended concatenation reproduces it. -/
theorem c4_witness :
    List.replicate 48 1 ++ [9, 9, 9, 9] = Ext2.amendedFileConcat E4 R4b :=
  c4_amended_traversal_order E4 R4b (List.replicate 48 1 ++ [9, 9, 9, 9])
    (by decide) (by decide) (by decide)

theorem dirDirectPhase_append (e : Ext2) :
    ∀ ps₁ acc, Ext2.dirDirectPhase e ps₁ = some (acc, false) → ∀ l₂,
      Ext2.dirDirectPhase e (ps₁ ++ l₂) =
        match Ext2.dirDirectPhase e l₂ with
        | none => none
        | some (b, early) => some (acc ++ b, early) := by
  intro ps₁
  induction ps₁ with
  | nil =>
    intro acc h l₂
    rw [Ext2.dirDirectPhase] at h
    simp only [Option.some.injEq, Prod.mk.injEq] at h
    rw [List.nil_append, ← h.1]
    cases hl2 : Ext2.dirDirectPhase e l₂ with
    | none => rfl
    | some pr =>
      obtain ⟨b, early⟩ := pr
      simp
  | cons p ps ih =>
    intro acc h l₂
    rw [Ext2.dirDirectPhase] at h
    split at h
    · exact absurd h (by simp)
    · next hp =>
      split at h
      · exact absurd h (by simp)
      · next hlt =>
        split at h
        · exact absurd h (by simp)
        · next blk heqblk =>
          split at h
          · exact absurd h (by simp)
          · exact absurd h (by simp)
          · next es heqwalk =>
            split at h
            · exact absurd h (by simp)
            · next es' early' heqps =>
              simp only [Option.some.injEq, Prod.mk.injEq] at h
              obtain ⟨hacc, hearly⟩ := h
              subst hearly
              rw [List.cons_append, Ext2.dirDirectPhase, if_neg hp, if_neg hlt, heqblk]
              simp only [heqwalk, ih es' heqps l₂]
              cases hl2 : Ext2.dirDirectPhase e l₂ with
              | none => simp
              | some pr =>
                obtain ⟨b, early⟩ := pr
                simp [← hacc, List.append_assoc]

/-- C10: if scanning a data block reached through one of the direct
pointers meets a record with `inode == 0` (here: the walk of block `p`, the
first pointer after prefix `ps₁`, reports an early stop), `read_dir_inode`'s
traversal returns immediately with the entries accumulated so far; the
remaining direct pointers `ps₂` and the inode's three indirect pointers are
arbitrary and never consulted. -/
theorem c10_zero_record_short_circuit (e : Ext2) (root : Inode) (ps₁ ps₂ : List Nat) (p : Nat)
    (blk : List Nat) (acc es : List (Nat × List Nat))
    (hroot : root.direct_pointer = ps₁ ++ p :: ps₂)
    (h1 : Ext2.dirDirectPhase e ps₁ = some (acc, false))
    (hp : p ≠ 0)
    (hple : e.block_offset ≤ p)
    (hblk : e.blocks[p - e.block_offset]? = some blk)
    (hwalk : Ext2.dirWalkGo e blk (e.block_size + 1) 0 = some (es, true)) :
    Ext2.readDirFromInode e root = some (.ok (acc ++ es)) := by
  have hphase : Ext2.dirDirectPhase e (ps₁ ++ p :: ps₂) = some (acc ++ es, true) := by
    rw [dirDirectPhase_append e ps₁ acc h1 (p :: ps₂), Ext2.dirDirectPhase, if_neg hp,
        if_neg (Nat.not_lt.mpr hple), hblk]
    simp only [hwalk]
  rw [Ext2.readDirFromInode, hroot, hphase]

/-- Witness for C10: on `E10`, block 1 holds one entry and then a
zero-inode record; the later direct pointers and all indirect pointers of
`R10` are 9 (dangling), yet the read returns the single accumulated
entry. -/
theorem c10_witness : Ext2.readDirFromInode E10 R10 = some (.ok [(4, [68])]) := by
  have h := c10_zero_record_short_circuit E10 R10 [] (List.replicate 11 9) 1
    [4, 0, 0, 0, 12, 0, 1, 0, 68, 0, 0, 0, 0, 0, 0, 0] [] [(4, [68])]
    (by decide) (by decide) (by decide) (by decide) (by decide) (by decide)
  simpa using h

/-- C5: opening an image whose superblock magic is not 0xEF53 fails at open
(`new` yields no image value), and conversely every successfully opened
image has `superblock.magic = 0xEF53`. -/
theorem c5_open_magic (bytes : List Nat) (dA sA : Nat) :
    ((parseSuperblock bytes).magic ≠ 0xef53 → Ext2.new bytes dA sA = none) ∧
    (∀ e, Ext2.new bytes dA sA = some e → e.superblock.magic = 0xef53) := by
  constructor
  · intro hmag
    simp only [Ext2.new]
    split
    · rfl
    · rfl
  · intro e h
    simp only [Ext2.new] at h
    repeat' split at h
    all_goals try exact Option.noConfusion h
    obtain rfl := Option.some.inj h
    show (parseSuperblock bytes).magic = 0xef53
    exact not_not.mp (by assumption)

/-- Witness for C5: the all-zero 2048-byte image has magic 0 and is
rejected, while the well-formed image `goodImage` opens to `Egood`, whose
superblock magic is 0xEF53. -/
theorem c5_witness : Ext2.new badImage 0 0 = none ∧ Egood.superblock.magic = 0xef53 :=
  ⟨(c5_open_magic badImage 0 0).1 (by rw [bad_magic]; decide),
   (c5_open_magic goodImage 0 0).2 Egood new_goodImage⟩

/-- C8: for every successfully opened image, the block group descriptor
table has exactly `ceil(blocks_count / blocks_per_group)` entries, computed
from the image's own superblock. -/
theorem c8_group_count (bytes : List Nat) (dA sA : Nat) (e : Ext2)
    (h : Ext2.new bytes dA sA = some e) :
    e.block_groups.length = divCeil e.superblock.blocks_count e.superblock.blocks_per_group := by
  simp only [Ext2.new] at h
  repeat' split at h
  all_goals try exact Option.noConfusion h
  obtain rfl := Option.some.inj h
  show (List.map (fun i => parseBGD bytes (2048 + 32 * i))
      (List.range (divCeil (parseSuperblock bytes).blocks_count
        (parseSuperblock bytes).blocks_per_group))).length =
    divCeil (parseSuperblock bytes).blocks_count (parseSuperblock bytes).blocks_per_group
  rw [List.length_map, List.length_range]

/-- Witness for C8: the opened `goodImage` has 1 block group and
`ceil(1 / 1) = 1`. -/
theorem c8_witness :
    Egood.block_groups.length = divCeil Egood.superblock.blocks_count Egood.superblock.blocks_per_group :=
  c8_group_count goodImage 0 0 Egood new_goodImage

/-- C7: for a 1-indexed inode number `n` in range, `get_inode` returns the
inode record at index `(n-1) mod inodes_per_group` of the inode table of
block group `(n-1) / inodes_per_group`, the table starting at
`blocks[inode_table_block − block_offset]` of that group's descriptor. -/
theorem c7_inode_locator (e : Ext2) (n : Nat) (hn : 1 ≤ n)
    (hipg : e.superblock.inodes_per_group ≠ 0)
    (bg : BlockGroupDescriptor)
    (hbg : e.block_groups[(n - 1) / e.superblock.inodes_per_group]? = some bg)
    (hoff : e.block_offset ≤ bg.inode_table_block)
    (hblk : (e.blocks[bg.inode_table_block - e.block_offset]?).isSome) :
    Ext2.get_inode e n =
      (Ext2.inodeTable e ((n - 1) / e.superblock.inodes_per_group))[(n - 1) %
        e.superblock.inodes_per_group]? := by
  obtain ⟨blk, hblk'⟩ := Option.isSome_iff_exists.mp hblk
  have hlt : (n - 1) % e.superblock.inodes_per_group < e.superblock.inodes_per_group :=
    Nat.mod_lt _ (Nat.pos_of_ne_zero hipg)
  simp [Ext2.get_inode, Ext2.inodeTable, hbg, hblk', hipg, Nat.not_lt.mpr hoff,
        (show ¬n = 0 by omega), range_getElem?, hlt]

/-- Witness for C7: inode number 2 of `E7` (one group, two inodes per
group, table at block 1) is the second 128-byte record of the table. -/
theorem c7_witness :
    Ext2.get_inode E7 2 =
      (Ext2.inodeTable E7 ((2 - 1) / E7.superblock.inodes_per_group))[(2 - 1) %
        E7.superblock.inodes_per_group]? :=
  c7_inode_locator E7 2 (by decide) (by decide)
    { block_usage_addr := 0, inode_usage_addr := 0, inode_table_block := 1,
      free_blocks_count := 0, free_inodes_count := 0, dirs_count := 0 }
    (by decide) (by decide) (by decide)

/-- C1 (code bug, evaluated at the failing input): on `E1`, whose
`block_offset` is 1, the singly-indirect meta-block (on-disk block 3,
fetched as `blocks[3 − 1]`) names on-disk block 4, but the leaf fetch
appends `blocks[4] = [9,9,9,9]` to the output — the meta-block entry is
used without the `b − block_offset` translation, which would have selected
`blocks[3] = [8,8,8,8]`.  The direct-pointer level does translate: each of
the twelve direct pointers 2 contributes `blocks[2 − 1] = [1,1,1,1]`. -/
theorem c1_block_offset_not_subtracted :
    Ext2.readFileFromInode E1 R1 = some (.ok (List.replicate 48 1 ++ [9, 9, 9, 9])) ∧
    readU32 [4, 0, 0, 0] 0 = 4 ∧
    E1.blocks.getD (4 - E1.block_offset) [] = [8, 8, 8, 8] ∧
    E1.blocks.getD 4 [] = [9, 9, 9, 9] := by
  decide

/-- C2 (code bug, evaluated at the failing input): `read_dir_indir_ptr`
decodes the meta-block of `E2` as `DirectoryEntry` records — it emits the
first 32-bit slot (5) as an inode number paired with a name and strides by
the record's `entry_size` 12 — instead of consuming the block as 32-bit
block numbers at stride 4, where the second slot (65548, non-zero) would
have been the next block number to follow. -/
theorem c2_meta_block_decoded_as_directory_entries :
    Ext2.read_dir_indir_ptr E2 0 = some (.ok [(5, [65])]) ∧
    Ext2.entrySize [5, 0, 0, 0, 12, 0, 1, 0, 65, 0, 0, 0, 0, 0, 0, 0] 0 = 12 ∧
    readU32 [5, 0, 0, 0, 12, 0, 1, 0, 65, 0, 0, 0, 0, 0, 0, 0] 4 = 65548 := by
  decide

/-- C6 counterexample: block 1 of `E6` opens with a record whose
`entry_size` is 100, far beyond the 16-byte block — a violation of
`off + entry_size ≤ block_size` — yet the read returns `Ok`, emits that
record, and goes on to emit the entry of the next direct block; no
malformed-entry error is surfaced and nothing is aborted. -/
theorem c6_counterexample :
    E6.block_size = 16 ∧
    Ext2.entrySize [7, 0, 0, 0, 100, 0, 1, 0, 66, 0, 0, 0, 0, 0, 0, 0] 0 = 100 ∧
    Ext2.readDirFromInode E6 R6 = some (.ok [(7, [66]), (3, [67])]) ∧
    noErr (Ext2.readDirFromInode E6 R6) = true := by
  decide

/-- C6 (amended): the directory decoder checks neither
`entry_size ≥ 8 + name_length` nor `off + entry_size ≤ block_size`; a
record whose `entry_size` reaches past the end of the block is emitted as a
normal entry and simply ends that block's scan (with the no-early-stop
flag, so traversal continues with the inode's remaining pointers); no error
value is produced. -/
theorem c6_amended_no_entry_validation (e : Ext2) (blk : List Nat) (off fuel : Nat)
    (hoff : off < e.block_size)
    (hino : Ext2.entryInode blk off ≠ 0)
    (hesz : e.block_size ≤ off + Ext2.entrySize blk off) :
    Ext2.dirWalkGo e blk (fuel + 2) off =
      some ([(Ext2.entryInode blk off, Ext2.entryName blk off)], false) := by
  rw [Ext2.dirWalkGo, if_pos hoff, if_neg hino, Ext2.dirWalkGo,
      if_neg (by omega : ¬off + Ext2.entrySize blk off < e.block_size)]

/-- Witness for C6 (amended): the walk of `E6`'s oversized first record
emits it and ends the scan without an early stop. -/
theorem c6_witness :
    Ext2.dirWalkGo E6 [7, 0, 0, 0, 100, 0, 1, 0, 66, 0, 0, 0, 0, 0, 0, 0] 17 0 =
      some ([(7, [66])], false) := by
  have h := c6_amended_no_entry_validation E6
    [7, 0, 0, 0, 100, 0, 1, 0, 66, 0, 0, 0, 0, 0, 0, 0] 0 15
    (by decide) (by decide) (by decide)
  simpa using h
